import Mathlib

/-!
Verification of the zkevm-specs state circuit checker (`src/zkevm_specs/state.py`).
The Python module is shallowly embedded: finite-field elements become `ZMod`
of the BN254 base-field modulus used by `py_ecc.bn128.FQ`, rows and oracle
entries become structures, and every checker (a sequence of Python `assert`
statements) becomes an `Except`-valued function whose error names the first
violated rule.
-/

/-- Modelled from the spec: the finite-field modulus of the `FQ` element type
imported from `zkevm_specs.util` (the `py_ecc.bn128` field modulus); the spec
only requires that the modulus exceeds every declared range bound. -/
def FQ_MODULUS : Nat :=
  21888242871839275222246405745257275088696311157297823662689037894645226208583

instance : NeZero FQ_MODULUS := ⟨by decide⟩

/-- Modelled from the spec: a finite-field element (a fixed-modulus integer
wrapper); `ZMod.val` plays the role of the Python `.n` integer representative. -/
abbrev FQ : Type := ZMod FQ_MODULUS

-- Constants from state.py
def MAX_RW_COUNTER : Nat := 2 ^ 32 - 1
def MAX_MEMORY_ADDRESS : Nat := 2 ^ 32 - 1
def MAX_KEY_DIFF : Nat := 2 ^ 32 - 1
def MAX_STACK_PTR : Nat := 1023
def MAX_TAG : Nat := 12
def MAX_ID : Nat := 2 ^ 28 - 1
def MAX_ADDRESS : Nat := 2 ^ 160 - 1
def MAX_FIELD_TAG : Nat := 24
def RW_COUNTER_BITS : Nat := 32
def TAG_BITS : Nat := 4
def ID_BITS : Nat := 28
def ADDRESS_BITS : Nat := 160
def FIELD_TAG_BITS : Nat := 5

/-- The `Tag` enumeration of state.py (12 variants, values 1..12). -/
inductive Tag : Type
  | Start
  | Memory
  | Stack
  | Storage
  | CallContext
  | Account
  | TxRefund
  | TxAccessListAccount
  | TxAccessListAccountStorage
  | AccountDestructed
  | TxLog
  | TxReceipt
deriving DecidableEq, Fintype

/-- The `IntEnum` value of each `Tag` variant. -/
def Tag.toNat : Tag → Nat
  | .Start => 1
  | .Memory => 2
  | .Stack => 3
  | .Storage => 4
  | .CallContext => 5
  | .Account => 6
  | .TxRefund => 7
  | .TxAccessListAccount => 8
  | .TxAccessListAccountStorage => 9
  | .AccountDestructed => 10
  | .TxLog => 11
  | .TxReceipt => 12

/-- A `Tag` value as a field element (the Python code compares `row.tag()`,
an `FQ`, against `Tag` enum members). -/
def Tag.fq (t : Tag) : FQ := (t.toNat : FQ)

/-- State circuit row (`Row` in state.py).  The Python `keys` tuple is split
into its five named components: `keys[0]` = `tag`, `keys[1]` = `id`,
`keys[2]` = `address`, `keys[3]` = `field_tag`, `keys[4]` = `storage_key`.
`aux0` is `auxs[0]`. -/
structure Row where
  rw_counter : FQ
  is_write : FQ
  tag : FQ
  id : FQ
  address : FQ
  field_tag : FQ
  storage_key : FQ
  key2_limbs : List FQ
  key4_bytes : List FQ
  value : FQ
  aux0 : FQ
  mpt_counter : FQ
deriving DecidableEq

/-- Modelled from the spec: an entry of the external membership oracle
(`MPTTableRow` imported from `zkevm_specs.evm`): six field elements
(counter, target-tag, address, key, value, value_prev). -/
structure MPTTableRow where
  counter : FQ
  target : FQ
  address : FQ
  key : FQ
  value : FQ
  value_prev : FQ
deriving DecidableEq

/-- Modelled from the spec: the `MPTTableTag.Storage` target tag imported from
`zkevm_specs.evm`; its concrete numeric value is immaterial to every property
proved here (both the checker and the oracle projection use this constant). -/
def MPTTableTag_Storage : FQ := 5

/-- Modelled from the spec: the `TxReceiptFieldTag.PostStateOrStatus` value
imported from `zkevm_specs.evm`. -/
def TxReceiptFieldTag_PostStateOrStatus : FQ := 1

/-- Modelled from the spec: the `TxReceiptFieldTag.CumulativeGasUsed` value
imported from `zkevm_specs.evm`. -/
def TxReceiptFieldTag_CumulativeGasUsed : FQ := 2

/-- Modelled from the spec: `linear_combine` from `zkevm_specs.util`:
the little-endian linear combination of `limbs` in base `base`
(Horner evaluation, so the result is `Σ limbs[i]·base^i`).  The byte
range check the Python function optionally performs is modelled at its
single relevant call site in `check_state_row`. -/
def linear_combine (limbs : List FQ) (base : FQ) : FQ :=
  limbs.foldr (fun b acc => acc * base + b) 0

/-- The little-endian integer `int.from_bytes(bytes, "little")` of the `.n`
values of a list of field elements. -/
def bytesToNat (bs : List FQ) : Nat :=
  bs.foldr (fun b acc => acc * 256 + b.val) 0

/-- The `count` least-significant base-`2^width` digits of a natural number,
little-endian, as field elements (the repeated mask-and-shift loop the Python
code uses for limb extraction). -/
def nat_limbs (width : Nat) : Nat → Nat → List FQ
  | 0, _ => []
  | count + 1, v => ((v % 2 ^ width : Nat) : FQ) :: nat_limbs width count (v / 2 ^ width)

/-- `all_keys_eq` from state.py: all five keys of two rows coincide. -/
def all_keys_eq (row row_prev : Row) : Bool :=
  decide (row.tag = row_prev.tag) && decide (row.id = row_prev.id) &&
    decide (row.address = row_prev.address) && decide (row.field_tag = row_prev.field_tag) &&
    decide (row.storage_key = row_prev.storage_key)

/-- `LowerThanGadget.verify` from state.py: chained strict less-than over
little-endian limb sequences: `lt := (lhs[0] < rhs[0])`, then for each
more-significant limb `lt := lhs[i] < rhs[i] or (lhs[i] == rhs[i] and lt)`. -/
def lower_than_verify (lhs rhs : List FQ) : Bool :=
  (List.zip lhs rhs).foldl
    (fun lt ab => decide (ab.1.val < ab.2.val) || (decide (ab.1 = ab.2) && lt)) false

/-- `assert_in_range` from state.py: `min_val <= x.n <= max_val`. -/
def assert_in_range (x : FQ) (min_val max_val : Nat) : Bool :=
  decide (min_val ≤ x.val) && decide (x.val ≤ max_val)

/-- Identifiers for each `assert` site of the Python checkers, so a rejection
names the violated rule (Python raises `AssertionError` at that site). -/
inductive Err : Type
  | tagRange
  | idRange
  | fieldTagRange
  | limbRange
  | addressLC
  | storageKeyByteRange
  | storageKeyRLC
  | isWriteBool
  | order
  | readConsistency
  | mptCounterStep
  | rwcNonzero
  | startRwc
  | startMpt
  | memFieldTag
  | memStorageKey
  | memFirstRead
  | memAddrRange
  | memValueRange
  | stackFieldTag
  | stackStorageKey
  | stackFirstWrite
  | stackPtrRange
  | stackPtrDiff
  | storageFieldTag
  | storageCommitted
  | storageLookupMiss
  | ccAddress
  | ccStorageKey
  | accId
  | accStorageKey
  | accCommitted
  | accLookupMiss
  | refundAddress
  | refundFieldTag
  | refundStorageKey
  | alaFieldTag
  | alaStorageKey
  | alasFieldTag
  | adId
  | adFieldTag
  | adStorageKey
  | logIsWrite
  | receiptAddress
  | receiptStorageKey
  | receiptPostState
  | receiptIdIncr
  | receiptGas
  | receiptIdStart
  | receiptIdRange
  | unreachable
deriving DecidableEq

/-- One Python `assert`: succeed when the condition holds, otherwise reject
naming the violated rule. -/
def req (b : Bool) (e : Err) : Except Err Unit :=
  if b then Except.ok () else Except.error e

/-- Sequencing of two checks: run the first; if it rejects, propagate its
rejection, otherwise run the second (Python statements execute in order and
an `assert` failure aborts the function). -/
def seqE (a k : Except Err Unit) : Except Err Unit :=
  match a with
  | Except.ok _ => k
  | Except.error e => Except.error e

/-- `Tables.mpt_storage_lookup` from state.py: exact-match lookup of the
six-field query tuple with target `MPTTableTag.Storage` (the `lookup` helper
from `zkevm_specs.evm` is modelled from the spec's oracle-query contract as
exact-match membership; it raises when no entry matches). -/
def mpt_storage_lookup (mpt_table : List MPTTableRow)
    (counter address key value value_prev : FQ) : Bool :=
  decide ((⟨counter, MPTTableTag_Storage, address, key, value, value_prev⟩ : MPTTableRow)
    ∈ mpt_table)

/-- `Tables.mpt_account_lookup` from state.py: exact-match lookup with the
given target and `key = 0`. -/
def mpt_account_lookup (mpt_table : List MPTTableRow)
    (counter target address value value_prev : FQ) : Bool :=
  decide ((⟨counter, target, address, 0, value, value_prev⟩ : MPTTableRow) ∈ mpt_table)

/-- `check_start` from state.py. -/
def check_start (row _row_prev : Row) : Except Err Unit :=
  seqE (req (decide (row.rw_counter = 0)) Err.startRwc) <|
  req (decide (row.mpt_counter = 0)) Err.startMpt

/-- `check_memory` from state.py. -/
def check_memory (row row_prev : Row) : Except Err Unit :=
  seqE (req (decide (row.field_tag = 0)) Err.memFieldTag) <|
  seqE (req (decide (row.storage_key = 0)) Err.memStorageKey) <|
  seqE (if all_keys_eq row row_prev = false ∧ row.is_write = 0 then
          req (decide (row.value = 0)) Err.memFirstRead
        else Except.ok ()) <|
  seqE (req (assert_in_range row.address 0 MAX_MEMORY_ADDRESS) Err.memAddrRange) <|
  req (assert_in_range row.value 0 (2 ^ 8 - 1)) Err.memValueRange

/-- `check_stack` from state.py. -/
def check_stack (row row_prev : Row) : Except Err Unit :=
  seqE (req (decide (row.field_tag = 0)) Err.stackFieldTag) <|
  seqE (req (decide (row.storage_key = 0)) Err.stackStorageKey) <|
  seqE (if all_keys_eq row row_prev = false then
          req (decide (row.is_write = 1)) Err.stackFirstWrite
        else Except.ok ()) <|
  seqE (req (assert_in_range row.address 0 MAX_STACK_PTR) Err.stackPtrRange) <|
  if row.tag = row_prev.tag ∧ row.id = row_prev.id then
    req (assert_in_range (row.address - row_prev.address) 0 1) Err.stackPtrDiff
  else Except.ok ()

/-- `check_storage` from state.py. -/
def check_storage (row row_prev : Row) (tables : List MPTTableRow) : Except Err Unit :=
  seqE (req (decide (row.field_tag = 0)) Err.storageFieldTag) <|
  seqE (if all_keys_eq row row_prev = true then
          req (decide (row.aux0 = row_prev.aux0)) Err.storageCommitted
        else Except.ok ()) <|
  req (mpt_storage_lookup tables row.mpt_counter row.address row.storage_key row.value
    (if all_keys_eq row row_prev then row_prev.value else row.aux0)) Err.storageLookupMiss

/-- `check_call_context` from state.py (constraints documented as incomplete). -/
def check_call_context (row _row_prev : Row) : Except Err Unit :=
  seqE (req (decide (row.address = 0)) Err.ccAddress) <|
  req (decide (row.storage_key = 0)) Err.ccStorageKey

/-- `check_account` from state.py. -/
def check_account (row row_prev : Row) (tables : List MPTTableRow) : Except Err Unit :=
  seqE (req (decide (row.id = 0)) Err.accId) <|
  seqE (req (decide (row.storage_key = 0)) Err.accStorageKey) <|
  seqE (if all_keys_eq row row_prev = true then
          req (decide (row.aux0 = row_prev.aux0)) Err.accCommitted
        else Except.ok ()) <|
  req (mpt_account_lookup tables row.mpt_counter row.field_tag row.address row.value
    (if all_keys_eq row row_prev then row_prev.value else row.aux0)) Err.accLookupMiss

/-- `check_tx_refund` from state.py (constraints documented as incomplete). -/
def check_tx_refund (row _row_prev : Row) : Except Err Unit :=
  seqE (req (decide (row.address = 0)) Err.refundAddress) <|
  seqE (req (decide (row.field_tag = 0)) Err.refundFieldTag) <|
  req (decide (row.storage_key = 0)) Err.refundStorageKey

/-- `check_tx_access_list_account` from state.py (incomplete constraints). -/
def check_tx_access_list_account (row _row_prev : Row) : Except Err Unit :=
  seqE (req (decide (row.field_tag = 0)) Err.alaFieldTag) <|
  req (decide (row.storage_key = 0)) Err.alaStorageKey

/-- `check_tx_access_list_account_storage` from state.py (incomplete). -/
def check_tx_access_list_account_storage (row _row_prev : Row) : Except Err Unit :=
  req (decide (row.field_tag = 0)) Err.alasFieldTag

/-- `check_account_destructed` from state.py (incomplete constraints). -/
def check_account_destructed (row _row_prev : Row) : Except Err Unit :=
  seqE (req (decide (row.id = 0)) Err.adId) <|
  seqE (req (decide (row.field_tag = 0)) Err.adFieldTag) <|
  req (decide (row.storage_key = 0)) Err.adStorageKey

/-- `check_tx_log` from state.py. -/
def check_tx_log (row _row_prev : Row) : Except Err Unit :=
  req (decide (row.is_write = 1)) Err.logIsWrite

/-- `check_tx_receipt` from state.py. -/
def check_tx_receipt (row row_prev : Row) : Except Err Unit :=
  seqE (req (decide (row.address = 0)) Err.receiptAddress) <|
  seqE (req (decide (row.storage_key = 0)) Err.receiptStorageKey) <|
  seqE (if row.field_tag = TxReceiptFieldTag_PostStateOrStatus then
          req (decide (row.value = 0) || decide (row.value = 1)) Err.receiptPostState
        else Except.ok ()) <|
  seqE (if ¬ row.id = row_prev.id ∧ row.tag = row_prev.tag then
          seqE (req (decide (row.id = row_prev.id + 1)) Err.receiptIdIncr) <|
          (if row.field_tag = TxReceiptFieldTag_CumulativeGasUsed then
            req (decide (row_prev.value.val < row.value.val)) Err.receiptGas
          else Except.ok ())
        else Except.ok ()) <|
  seqE (if ¬ row.tag = row_prev.tag then
          req (decide (row.id = 1)) Err.receiptIdStart
        else Except.ok ()) <|
  req (assert_in_range row.id 1 (2 ^ 11)) Err.receiptIdRange

/-- `keys_rwc_to_limbs_in_order` from `check_state_row`, the packed integer
`v` before limb extraction.  All arithmetic is on plain Python integers
(`.n` values), exactly as in the source — including the `v * 2**32` shift
before adding the storage-key byte integer. -/
def keys_rwc_packed (row : Row) : Nat :=
  let v := row.tag.val
  let v := v * 2 ^ ID_BITS + row.id.val
  let v := v * 2 ^ ADDRESS_BITS + row.address.val
  let v := v * 2 ^ 16 + row.field_tag.val
  let v := v * 2 ^ 32 + bytesToNat row.key4_bytes
  v * 2 ^ RW_COUNTER_BITS + row.rw_counter.val

/-- `keys_rwc_to_limbs_in_order` from `check_state_row`: the 31 little-endian
16-bit limbs of the packed value (the Python `v & 0xFFFF` / `v >> 16` loop). -/
def keys_rwc_to_limbs_in_order (row : Row) : List FQ :=
  nat_limbs 16 31 (keys_rwc_packed row)

/-- The tag dispatch at the end of `check_state_row` (the if/elif chain in
source order, ending in the `raise ValueError("Unreacheable")` branch). -/
def tag_dispatch (row row_prev : Row) (tables : List MPTTableRow) : Except Err Unit :=
  if row.tag = Tag.fq Tag.Start then check_start row row_prev
  else if row.tag = Tag.fq Tag.Memory then check_memory row row_prev
  else if row.tag = Tag.fq Tag.Stack then check_stack row row_prev
  else if row.tag = Tag.fq Tag.Storage then check_storage row row_prev tables
  else if row.tag = Tag.fq Tag.CallContext then check_call_context row row_prev
  else if row.tag = Tag.fq Tag.Account then check_account row row_prev tables
  else if row.tag = Tag.fq Tag.TxRefund then check_tx_refund row row_prev
  else if row.tag = Tag.fq Tag.TxAccessListAccountStorage then
    check_tx_access_list_account_storage row row_prev
  else if row.tag = Tag.fq Tag.TxAccessListAccount then check_tx_access_list_account row row_prev
  else if row.tag = Tag.fq Tag.AccountDestructed then check_account_destructed row row_prev
  else if row.tag = Tag.fq Tag.TxReceipt then check_tx_receipt row row_prev
  else if row.tag = Tag.fq Tag.TxLog then check_tx_log row row_prev
  else Except.error Err.unreachable

/-- `check_state_row` from state.py: the shared constraints in source order,
then the per-tag dispatch.  The byte range check inside the Python
`linear_combine` call of constraint 0.2 (its default `range_check=True`)
appears as the separate `storageKeyByteRange` step. -/
def check_state_row (row row_prev : Row) (tables : List MPTTableRow) (randomness : FQ) :
    Except Err Unit :=
  seqE (req (assert_in_range row.tag 1 MAX_TAG) Err.tagRange) <|
  seqE (req (assert_in_range row.id 0 MAX_ID) Err.idRange) <|
  seqE (req (assert_in_range row.field_tag 0 MAX_FIELD_TAG) Err.fieldTagRange) <|
  seqE (req (row.key2_limbs.all (fun limb => assert_in_range limb 0 (2 ^ 16 - 1)))
    Err.limbRange) <|
  seqE (req (decide (row.address = linear_combine row.key2_limbs ((2 ^ 16 : Nat) : FQ)))
    Err.addressLC) <|
  seqE (req (row.key4_bytes.all (fun b => decide (b.val < 256))) Err.storageKeyByteRange) <|
  seqE (req (decide (row.storage_key = linear_combine row.key4_bytes randomness))
    Err.storageKeyRLC) <|
  seqE (req (decide (row.is_write = 0) || decide (row.is_write = 1)) Err.isWriteBool) <|
  seqE (if ¬ row.tag = Tag.fq Tag.Start then
          req (lower_than_verify (keys_rwc_to_limbs_in_order row_prev)
            (keys_rwc_to_limbs_in_order row)) Err.order
        else Except.ok ()) <|
  seqE (if row.is_write = 0 ∧ all_keys_eq row row_prev = true then
          req (decide (row.value = row_prev.value)) Err.readConsistency
        else Except.ok ()) <|
  seqE (if ¬ row.tag = Tag.fq Tag.Start then
          if row.tag = Tag.fq Tag.Storage ∨ row.tag = Tag.fq Tag.Account then
            req (decide (row.mpt_counter = row_prev.mpt_counter + 1)) Err.mptCounterStep
          else
            req (decide (row.mpt_counter = row_prev.mpt_counter)) Err.mptCounterStep
        else Except.ok ()) <|
  seqE (if ¬ row.tag = Tag.fq Tag.Start then
          req (!decide (row.rw_counter = 0)) Err.rwcNonzero
        else Except.ok ()) <|
  tag_dispatch row row_prev tables

/-- `RW` from `zkevm_specs.evm`, modelled from the spec: the read/write flag
of a logical operation. -/
inductive RW : Type
  | Read
  | Write
deriving DecidableEq

/-- `Operation` from state.py: the logical, non-decomposed record produced by
the execution layer.  The key slots are plain integers (`U256` values);
`value` and `aux0` are field elements. -/
structure Operation where
  rw_counter : Nat
  rw : RW
  tag : Nat
  id : Nat
  address : Nat
  field_tag : Nat
  storage_key : Nat
  value : FQ
  aux0 : FQ
deriving DecidableEq

/-- Modelled from the spec: the 32 little-endian bytes of a 256-bit integer
(`RLC.le_bytes` / `int.to_bytes(32, "little")` from `zkevm_specs.util`). -/
def le_bytes32 (x : Nat) : List FQ := nat_limbs 8 32 x

/-- The ten 16-bit little-endian limbs `Assigner.op2row` derives from the
20 little-endian address bytes (`address_bytes[2i] + 2^8·address_bytes[2i+1]`,
which for a sub-`2^160` address is `(address / 2^(16i)) % 2^16`). -/
def address_limbs10 (x : Nat) : List FQ := nat_limbs 16 10 x

/-- The test `tag == FQ(Tag.Storage) or tag == FQ(Tag.Account)` by which
`Assigner.op2row` advances its `mpt_counter`. -/
def op_is_storage_or_account (op : Operation) : Bool :=
  decide ((op.tag : FQ) = Tag.fq Tag.Storage) || decide ((op.tag : FQ) = Tag.fq Tag.Account)

/-- `Assigner.op2row` from state.py: turn one operation into a row, threading
the running `mpt_counter` (returned first, alongside the produced row).
`storage_key` is the RLC encoding of the 32 storage-key bytes under the
per-proof challenge, exactly as `RLC(op.storage_key, randomness).expr()`. -/
def op2row (mpt_counter : FQ) (op : Operation) (randomness : FQ) : FQ × Row :=
  let mpt_counter' := if op_is_storage_or_account op then mpt_counter + 1 else mpt_counter
  (mpt_counter',
    { rw_counter := (op.rw_counter : FQ)
      is_write := match op.rw with | RW.Read => 0 | RW.Write => 1
      tag := (op.tag : FQ)
      id := (op.id : FQ)
      address := (op.address : FQ)
      field_tag := (op.field_tag : FQ)
      storage_key := linear_combine (le_bytes32 op.storage_key) randomness
      key2_limbs := address_limbs10 op.address
      key4_bytes := le_bytes32 op.storage_key
      value := op.value
      aux0 := op.aux0
      mpt_counter := mpt_counter' })

/-- The forward pass of `assign_state_circuit` with an explicit counter
accumulator (the Python `Assigner` object state). -/
def assign_go (mpt_counter : FQ) (ops : List Operation) (randomness : FQ) : List Row :=
  match ops with
  | [] => []
  | op :: rest =>
    let step := op2row mpt_counter op randomness
    step.2 :: assign_go step.1 rest randomness

/-- `assign_state_circuit` from state.py: build the advice rows from a list
of operations, starting the counter at 0. -/
def assign_state_circuit (ops : List Operation) (randomness : FQ) : List Row :=
  assign_go 0 ops randomness

/-- The `value_prev` computation of `mpt_table_from_ops`: the row's `auxs[0]`
at index 0 (`idx > 0` fails) or when the keys changed, else the previous
row's value. -/
def mpt_value_prev (row : Row) : Option Row → FQ
  | none => row.aux0
  | some row_prev => if all_keys_eq row row_prev then row_prev.value else row.aux0

/-- The loop body of `mpt_table_from_ops` over a row sequence: `prev` is the
predecessor of the first element of `rows` (`none` at index 0).  For each
Storage/Account row it emits the six-field oracle tuple with the
`mpt_value_prev` computation above. -/
def mpt_rows_go (prev : Option Row) (rows : List Row) : List MPTTableRow :=
  match rows with
  | [] => []
  | row :: rest =>
    if row.tag = Tag.fq Tag.Storage then
      (⟨row.mpt_counter, MPTTableTag_Storage, row.address, row.storage_key, row.value,
        mpt_value_prev row prev⟩ : MPTTableRow) :: mpt_rows_go (some row) rest
    else if row.tag = Tag.fq Tag.Account then
      (⟨row.mpt_counter, row.field_tag, row.address, row.storage_key, row.value,
        mpt_value_prev row prev⟩ : MPTTableRow) :: mpt_rows_go (some row) rest
    else mpt_rows_go (some row) rest

/-- `mpt_table_from_ops` from state.py, on an already-assigned row sequence
(the Python `Set` is modelled as the list of emitted tuples; only membership
is ever consulted). -/
def mpt_table_from_rows (rows : List Row) : List MPTTableRow :=
  mpt_rows_go none rows

/-- `mpt_table_from_ops` from state.py, on an operation list (the
`isinstance(…, Operation)` branch: assign rows first, then project). -/
def mpt_table_from_ops (ops : List Operation) (randomness : FQ) : List MPTTableRow :=
  mpt_table_from_rows (assign_state_circuit ops randomness)

/-- A row with every field zero: the synthetic predecessor the spec prescribes
for the first row of a validated sequence ("a synthetic Start row of all
zeros"). -/
def initial_row : Row :=
  { rw_counter := 0, is_write := 0, tag := 0, id := 0, address := 0, field_tag := 0,
    storage_key := 0, key2_limbs := List.replicate 10 0, key4_bytes := List.replicate 32 0,
    value := 0, aux0 := 0, mpt_counter := 0 }

/-- The predecessor row the validator uses at index `i` of a row sequence:
the synthetic all-zero row at index 0, otherwise the row directly before. -/
def prev_row_at (rows : List Row) (i : Nat) : Row :=
  if i = 0 then initial_row else rows.getD (i - 1) initial_row

/-- The composite key of a row per the spec's ordering claim: the tuple
(tag, id, address, field_tag, storage-key-bytes-as-integer, rw_counter)
of integer representatives, most significant component first. -/
def spec_lex_key (row : Row) : Nat × Nat × Nat × Nat × Nat × Nat :=
  (row.tag.val, row.id.val, row.address.val, row.field_tag.val,
    bytesToNat row.key4_bytes, row.rw_counter.val)

/-- Strict lexicographic comparison of two composite keys, most significant
component first, per the spec's ordering claim. -/
def spec_lex_lt : Nat × Nat × Nat × Nat × Nat × Nat → Nat × Nat × Nat × Nat × Nat × Nat → Bool
  | (a1, a2, a3, a4, a5, a6), (b1, b2, b3, b4, b5, b6) =>
    decide (a1 < b1) || (decide (a1 = b1) &&
      (decide (a2 < b2) || (decide (a2 = b2) &&
        (decide (a3 < b3) || (decide (a3 = b3) &&
          (decide (a4 < b4) || (decide (a4 = b4) &&
            (decide (a5 < b5) || (decide (a5 = b5) &&
              decide (a6 < b6))))))))))

/-- Declared bit-width bounds on every ordering-relevant field of a row:
tag in [1,12], id below 2^28, address below 2^160, field_tag at most 24,
32 storage-key bytes each below 2^8, ten 16-bit address limbs, and
rw_counter below 2^32. -/
def row_in_widths (row : Row) : Bool :=
  decide (1 ≤ row.tag.val) && decide (row.tag.val ≤ MAX_TAG) &&
    decide (row.id.val ≤ MAX_ID) && decide (row.address.val ≤ MAX_ADDRESS) &&
    decide (row.field_tag.val ≤ MAX_FIELD_TAG) &&
    row.key4_bytes.all (fun b => decide (b.val < 2 ^ 8)) &&
    decide (row.key4_bytes.length = 32) &&
    row.key2_limbs.all (fun l => decide (l.val < 2 ^ 16)) &&
    decide (row.key2_limbs.length = 10) &&
    decide (row.rw_counter.val ≤ MAX_RW_COUNTER)

-- Concrete rows used by counterexamples and witnesses.

/-- Previous row of the ordering counterexample: a Memory-tagged row with
field_tag 1, all-zero storage key, rw_counter 1. -/
def c1_row_prev : Row :=
  { initial_row with
      tag := 2
      field_tag := 1
      rw_counter := 1 }

/-- Current row of the ordering counterexample: a Memory-tagged row with
field_tag 0, storage-key bytes encoding the integer 2^32 (byte 4 is 1),
rw_counter 2. -/
def c1_row : Row :=
  { initial_row with
      tag := 2
      rw_counter := 2
      key4_bytes := List.replicate 4 0 ++ 1 :: List.replicate 27 0 }

/-- A TxReceipt row with transaction id 2048. -/
def c2_row : Row :=
  { initial_row with
      tag := 12
      id := 2048
      is_write := 1
      rw_counter := 1 }

/-- A previous row with the same tag and id as `c2_row`. -/
def c2_row_prev : Row :=
  { initial_row with
      tag := 12
      id := 2048 }

/-- A Storage row used to exercise the oracle lookup. -/
def c3_storage_row : Row :=
  { initial_row with
      tag := 4
      value := 9
      aux0 := 7
      mpt_counter := 1 }

/-- An Account row used to exercise the oracle lookup. -/
def c3_account_row : Row :=
  { initial_row with
      tag := 6
      field_tag := 2
      value := 3
      aux0 := 5
      mpt_counter := 1 }

/-- A well-formed Start row (also used paired with itself, all keys equal). -/
def c4_row : Row :=
  { initial_row with tag := 1 }

/-- A previous row with nonzero `mpt_counter`, followed by a Start row. -/
def c5_row_prev : Row :=
  { initial_row with mpt_counter := 1 }

/-- A first-access Stack write at stack pointer 5. -/
def c6_row : Row :=
  { initial_row with
      tag := 3
      is_write := 1
      address := 5
      rw_counter := 1 }

/-- A first-access Memory write of byte value 5. -/
def c7_row : Row :=
  { initial_row with
      tag := 2
      is_write := 1
      value := 5
      rw_counter := 1 }

/-- A concrete Storage operation (tag 4, id 1, value 9). -/
def c9_op : Operation :=
  ⟨1, RW.Write, 4, 1, 0, 0, 0, 9, 7⟩

/-- The default used when indexing an operation list. -/
def default_op : Operation := ⟨0, RW.Read, 0, 0, 0, 0, 0, 0, 0⟩

/-- Well-formedness of an operation per the spec's data model: the address
fits 160 bits and the storage key 256 bits (the builder's `to_bytes` calls
raise otherwise), and an Account operation has storage key 0 (every
constructor of an Account operation pins that slot to zero). -/
def OpWF (op : Operation) : Prop :=
  op.address < 2 ^ 160 ∧ op.storage_key < 2 ^ 256 ∧
    ((op.tag : FQ) = Tag.fq Tag.Account → op.storage_key = 0)

/-- The optional predecessor of index `i` in a row list whose own (optional)
predecessor is `prev`. -/
def opt_prev (prev : Option Row) (rows : List Row) : Nat → Option Row
  | 0 => prev
  | i + 1 => some (rows.getD i initial_row)

/-- Row `i` of the circuit assignment built from `ops`. -/
def state_row_at (ops : List Operation) (randomness : FQ) (i : Nat) : Row :=
  (assign_state_circuit ops randomness).getD i initial_row

/-- The predecessor row the validator pairs with row `i` of the circuit
assignment (the synthetic all-zero row at index 0). -/
def state_prev_row (ops : List Operation) (randomness : FQ) (i : Nat) : Row :=
  prev_row_at (assign_state_circuit ops randomness) i

-- Inversion helpers for the sequential-assert (`Except`) encoding.

/-- If a sequence of checks succeeds, its first check succeeds. -/
theorem seqE_ok_left {a k : Except Err Unit}
    (h : seqE a k = Except.ok ()) : a = Except.ok () := by
  cases a with
  | ok u => cases u; rfl
  | error e => exact Except.noConfusion h

/-- If a sequence of checks succeeds, its remainder succeeds. -/
theorem seqE_ok_right {a k : Except Err Unit}
    (h : seqE a k = Except.ok ()) : k = Except.ok () := by
  cases a with
  | ok u => cases u; exact h
  | error e => exact Except.noConfusion h

/-- A successful `req` has a true condition. -/
theorem req_true {b : Bool} {e : Err} (h : req b e = Except.ok ()) : b = true := by
  cases b
  · exact absurd h (by simp [req])
  · rfl

/-- A successful conditional check whose condition holds succeeds in its
positive branch. -/
theorem ite_ok_elim {c : Prop} [Decidable c] {a b : Except Err Unit}
    (h : (if c then a else b) = Except.ok ()) (hc : c) : a = Except.ok () := by
  rwa [if_pos hc] at h

/-- A successful conditional check whose condition fails succeeds in its
negative branch. -/
theorem ite_ok_elim_neg {c : Prop} [Decidable c] {a b : Except Err Unit}
    (h : (if c then a else b) = Except.ok ()) (hc : ¬c) : b = Except.ok () := by
  rwa [if_neg hc] at h

/-- Unpack a successful `assert_in_range`. -/
theorem in_range_true {x : FQ} {lo hi : Nat} (h : assert_in_range x lo hi = true) :
    lo ≤ x.val ∧ x.val ≤ hi := by
  simpa [assert_in_range] using h

/-- Two rows with different tags never have all keys equal. -/
theorem all_keys_eq_false_of_tag_ne {row row_prev : Row} (h : ¬ row.tag = row_prev.tag) :
    all_keys_eq row row_prev = false := by
  simp [all_keys_eq, h]


/-- Claim C1: the ordering check of `check_state_row` (packing tag, id,
address, field_tag, the 256-bit storage-key byte decomposition, and
rw_counter into 16-bit limbs and running `LowerThanGadget.verify`) is claimed
to accept exactly when the previous row's composite key tuple is
lexicographically smaller than the current row's.  This theorem exhibits two
in-width rows for which the code's check accepts although the previous key
tuple is lexicographically greater (the code shifts by `2**32` instead of
`2**256` before adding the storage-key integer, so the storage key overlaps
the more significant key components), refuting the claimed equivalence. -/
theorem C1_ordering_check_bug :
    row_in_widths c1_row_prev = true ∧ row_in_widths c1_row = true ∧
    ¬ c1_row.tag = Tag.fq Tag.Start ∧
    lower_than_verify (keys_rwc_to_limbs_in_order c1_row_prev)
      (keys_rwc_to_limbs_in_order c1_row) = true ∧
    spec_lex_lt (spec_lex_key c1_row_prev) (spec_lex_key c1_row) = false := by
  exact ⟨by decide, by decide, by decide, by decide, by decide⟩

/-- Claim C2 (counterexample): `check_tx_receipt` accepts a row whose
transaction id is 2048, outside the claimed range [1, 2047] (the code checks
`assert_in_range(tx_id, 1, 2**11)`, an inclusive upper bound of 2048). -/
theorem C2_receipt_id_counterexample :
    check_tx_receipt c2_row c2_row_prev = Except.ok () ∧ ¬ c2_row.id.val ≤ 2047 :=
  ⟨rfl, by decide⟩

/-- Claim C2 (amended): every row accepted by `check_tx_receipt` has its
transaction id in the range [1, 2048] (equivalently, a row with id outside
[1, 2^11] is rejected). -/
theorem C2_receipt_id_range (row row_prev : Row)
    (h : check_tx_receipt row row_prev = Except.ok ()) :
    1 ≤ row.id.val ∧ row.id.val ≤ 2 ^ 11 := by
  unfold check_tx_receipt at h
  replace h := seqE_ok_right h
  replace h := seqE_ok_right h
  replace h := seqE_ok_right h
  replace h := seqE_ok_right h
  replace h := seqE_ok_right h
  exact in_range_true (req_true h)

/-- Witness for C2: the amended range theorem applied at a concrete accepted
TxReceipt row. -/
theorem C2_receipt_id_range_witness : 1 ≤ c2_row.id.val ∧ c2_row.id.val ≤ 2 ^ 11 :=
  C2_receipt_id_range c2_row c2_row_prev rfl

/-- Claim C3: a Storage row is accepted by `check_storage` only if the oracle
contains the exact entry (mpt_counter, Storage target, address, storage_key,
value, value_prev), where value_prev is the previous row's value when all
five keys match the previous row and the row's committed value (`auxs[0]`)
otherwise; an Account row is accepted by `check_account` only under the same
rule with target the row's field_tag and key 0. -/
theorem C3_oracle_lookup (row row_prev : Row) (tables : List MPTTableRow) :
    (check_storage row row_prev tables = Except.ok () →
      (⟨row.mpt_counter, MPTTableTag_Storage, row.address, row.storage_key, row.value,
        if all_keys_eq row row_prev then row_prev.value else row.aux0⟩ : MPTTableRow)
        ∈ tables) ∧
    (check_account row row_prev tables = Except.ok () →
      (⟨row.mpt_counter, row.field_tag, row.address, 0, row.value,
        if all_keys_eq row row_prev then row_prev.value else row.aux0⟩ : MPTTableRow)
        ∈ tables) := by
  constructor
  · intro h
    unfold check_storage at h
    replace h := seqE_ok_right h
    replace h := seqE_ok_right h
    replace h : mpt_storage_lookup tables row.mpt_counter row.address row.storage_key row.value
        (if all_keys_eq row row_prev then row_prev.value else row.aux0) = true := req_true h
    exact of_decide_eq_true h
  · intro h
    unfold check_account at h
    replace h := seqE_ok_right h
    replace h := seqE_ok_right h
    replace h := seqE_ok_right h
    replace h : mpt_account_lookup tables row.mpt_counter row.field_tag row.address row.value
        (if all_keys_eq row row_prev then row_prev.value else row.aux0) = true := req_true h
    exact of_decide_eq_true h

/-- Witness for C3: the lookup theorem applied to a concrete accepted Storage
row and a concrete accepted Account row against singleton oracles. -/
theorem C3_oracle_lookup_witness :
    (⟨1, MPTTableTag_Storage, 0, 0, 9, 7⟩ : MPTTableRow)
      ∈ [(⟨1, MPTTableTag_Storage, 0, 0, 9, 7⟩ : MPTTableRow)] ∧
    (⟨1, 2, 0, 0, 3, 5⟩ : MPTTableRow) ∈ [(⟨1, 2, 0, 0, 3, 5⟩ : MPTTableRow)] :=
  ⟨(C3_oracle_lookup c3_storage_row initial_row
      [(⟨1, MPTTableTag_Storage, 0, 0, 9, 7⟩ : MPTTableRow)]).1 rfl,
   (C3_oracle_lookup c3_account_row initial_row
      [(⟨1, 2, 0, 0, 3, 5⟩ : MPTTableRow)]).2 rfl⟩

/-- Claim C4: for every consecutive row pair accepted by `check_state_row`,
a read (is_write = 0) whose five keys all equal the previous row's keys has
the same value as the previous row. -/
theorem C4_read_consistency (row row_prev : Row) (tables : List MPTTableRow) (randomness : FQ)
    (h : check_state_row row row_prev tables randomness = Except.ok ())
    (hw : row.is_write = 0) (hk : all_keys_eq row row_prev = true) :
    row.value = row_prev.value := by
  unfold check_state_row at h
  replace h := seqE_ok_right h
  replace h := seqE_ok_right h
  replace h := seqE_ok_right h
  replace h := seqE_ok_right h
  replace h := seqE_ok_right h
  replace h := seqE_ok_right h
  replace h := seqE_ok_right h
  replace h := seqE_ok_right h
  replace h := seqE_ok_right h
  have h10 := seqE_ok_left h
  exact of_decide_eq_true (req_true (ite_ok_elim h10 ⟨hw, hk⟩))

/-- Witness for C4: the read-consistency theorem applied at a concrete
accepted pair of identical Start rows. -/
theorem C4_read_consistency_witness : c4_row.value = c4_row.value :=
  C4_read_consistency c4_row c4_row [] 0 rfl rfl rfl

/-- Claim C6: every Stack row accepted by `check_stack` is a write when its
key tuple differs from the previous row's, has its stack pointer in
[0, 1023], and, when tag and id both match the previous row, the
field-element difference of the stack pointers is 0 or 1. -/
theorem C6_stack_rules (row row_prev : Row)
    (h : check_stack row row_prev = Except.ok ()) :
    (all_keys_eq row row_prev = false → row.is_write = 1) ∧
    row.address.val ≤ 1023 ∧
    (row.tag = row_prev.tag → row.id = row_prev.id →
      (row.address - row_prev.address).val = 0 ∨ (row.address - row_prev.address).val = 1) := by
  unfold check_stack at h
  replace h := seqE_ok_right h
  replace h := seqE_ok_right h
  have h3 := seqE_ok_left h
  replace h := seqE_ok_right h
  have h4 := seqE_ok_left h
  replace h := seqE_ok_right h
  refine ⟨?_, ?_, ?_⟩
  · intro hk
    exact of_decide_eq_true (req_true (ite_ok_elim h3 hk))
  · exact (in_range_true (req_true h4)).2
  · intro ht hi
    have := in_range_true (req_true (ite_ok_elim h ⟨ht, hi⟩))
    omega

/-- Witness for C6: the stack theorem applied at a concrete accepted
first-access stack write. -/
theorem C6_stack_rules_witness :
    (all_keys_eq c6_row initial_row = false → c6_row.is_write = 1) ∧
    c6_row.address.val ≤ 1023 ∧
    (c6_row.tag = initial_row.tag → c6_row.id = initial_row.id →
      (c6_row.address - initial_row.address).val = 0 ∨
        (c6_row.address - initial_row.address).val = 1) :=
  C6_stack_rules c6_row initial_row rfl

/-- Claim C7: every Memory row accepted by `check_memory` has zero field_tag
and storage_key, reads as zero on a first access (key tuple differing from
the previous row) that is a read, and has address in [0, 2^32 - 1] and value
in [0, 255]. -/
theorem C7_memory_rules (row row_prev : Row)
    (h : check_memory row row_prev = Except.ok ()) :
    row.field_tag = 0 ∧ row.storage_key = 0 ∧
    (all_keys_eq row row_prev = false → row.is_write = 0 → row.value = 0) ∧
    row.address.val ≤ 2 ^ 32 - 1 ∧ row.value.val ≤ 255 := by
  unfold check_memory at h
  have h1 := seqE_ok_left h
  replace h := seqE_ok_right h
  have h2 := seqE_ok_left h
  replace h := seqE_ok_right h
  have h3 := seqE_ok_left h
  replace h := seqE_ok_right h
  have h4 := seqE_ok_left h
  replace h := seqE_ok_right h
  refine ⟨of_decide_eq_true (req_true h1), of_decide_eq_true (req_true h2), ?_, ?_, ?_⟩
  · intro hk hw
    exact of_decide_eq_true (req_true (ite_ok_elim h3 ⟨hk, hw⟩))
  · exact (in_range_true (req_true h4)).2
  · exact (in_range_true (req_true h)).2

/-- Witness for C7: the memory theorem applied at a concrete accepted
first-access memory write. -/
theorem C7_memory_rules_witness :
    c7_row.field_tag = 0 ∧ c7_row.storage_key = 0 ∧
    (all_keys_eq c7_row initial_row = false → c7_row.is_write = 0 → c7_row.value = 0) ∧
    c7_row.address.val ≤ 2 ^ 32 - 1 ∧ c7_row.value.val ≤ 255 :=
  C7_memory_rules c7_row initial_row rfl

/-- Claim C8: `check_state_row` is deterministic: two invocations with equal
inputs (row, previous row, oracle table, randomness challenge) produce the
same outcome — both accept, or both reject naming the same violated rule
(the `Except` result carries the rule identifier). -/
theorem C8_deterministic (row row_prev : Row) (tables : List MPTTableRow) (randomness : FQ)
    (row' row_prev' : Row) (tables' : List MPTTableRow) (randomness' : FQ)
    (h1 : row = row') (h2 : row_prev = row_prev') (h3 : tables = tables')
    (h4 : randomness = randomness') :
    check_state_row row row_prev tables randomness =
      check_state_row row' row_prev' tables' randomness' := by
  subst h1; subst h2; subst h3; subst h4; rfl

/-- Witness for C8: determinism applied at concrete equal inputs. -/
theorem C8_deterministic_witness :
    check_state_row c4_row initial_row [] 0 = check_state_row c4_row initial_row [] 0 :=
  C8_deterministic c4_row initial_row [] 0 c4_row initial_row [] 0 rfl rfl rfl rfl

/-- Claim C5 (counterexample): `check_state_row` accepts a Start row whose
`mpt_counter` (necessarily 0) differs from the previous row's `mpt_counter`:
the equality-with-previous rule is guarded by `tag != Start` in the code, so
it does not apply to Start rows, refuting the claim's "(including Start)". -/
theorem C5_mpt_counter_counterexample :
    check_state_row c4_row c5_row_prev [] 0 = Except.ok () ∧
    ¬ c4_row.mpt_counter = c5_row_prev.mpt_counter :=
  ⟨rfl, by decide⟩

/-- Claim C5 (amended): for every consecutive pair accepted by
`check_state_row`, the current row's `mpt_counter` equals the previous row's
plus 1 when the tag is Storage or Account, equals the previous row's for
every other non-Start tag, and for Start rows no relation to the previous
row is enforced — instead `mpt_counter` must be 0. -/
theorem C5_mpt_counter_step (row row_prev : Row) (tables : List MPTTableRow) (randomness : FQ)
    (h : check_state_row row row_prev tables randomness = Except.ok ()) :
    ((row.tag = Tag.fq Tag.Storage ∨ row.tag = Tag.fq Tag.Account) →
      row.mpt_counter = row_prev.mpt_counter + 1) ∧
    (¬ row.tag = Tag.fq Tag.Start → ¬ row.tag = Tag.fq Tag.Storage →
      ¬ row.tag = Tag.fq Tag.Account → row.mpt_counter = row_prev.mpt_counter) ∧
    (row.tag = Tag.fq Tag.Start → row.mpt_counter = 0) := by
  unfold check_state_row at h
  replace h := seqE_ok_right h
  replace h := seqE_ok_right h
  replace h := seqE_ok_right h
  replace h := seqE_ok_right h
  replace h := seqE_ok_right h
  replace h := seqE_ok_right h
  replace h := seqE_ok_right h
  replace h := seqE_ok_right h
  replace h := seqE_ok_right h
  replace h := seqE_ok_right h
  have h11 := seqE_ok_left h
  replace h := seqE_ok_right h
  replace h := seqE_ok_right h
  refine ⟨?_, ?_, ?_⟩
  · intro hsa
    have hns : ¬ row.tag = Tag.fq Tag.Start := by
      rcases hsa with h4 | h6
      · rw [h4]; decide
      · rw [h6]; decide
    exact of_decide_eq_true (req_true (ite_ok_elim (ite_ok_elim h11 hns) hsa))
  · intro hns hnst hna
    exact of_decide_eq_true (req_true
      (ite_ok_elim_neg (ite_ok_elim h11 hns) (not_or.mpr ⟨hnst, hna⟩)))
  · intro hst
    unfold tag_dispatch at h
    rw [if_pos hst] at h
    exact of_decide_eq_true (req_true (seqE_ok_right h))

/-- Witness for C5: the amended counter-step theorem applied at a concrete
accepted pair (a Start row after the all-zero row). -/
theorem C5_mpt_counter_step_witness :
    ((c4_row.tag = Tag.fq Tag.Storage ∨ c4_row.tag = Tag.fq Tag.Account) →
      c4_row.mpt_counter = initial_row.mpt_counter + 1) ∧
    (¬ c4_row.tag = Tag.fq Tag.Start → ¬ c4_row.tag = Tag.fq Tag.Storage →
      ¬ c4_row.tag = Tag.fq Tag.Account → c4_row.mpt_counter = initial_row.mpt_counter) ∧
    (c4_row.tag = Tag.fq Tag.Start → c4_row.mpt_counter = 0) :=
  C5_mpt_counter_step c4_row initial_row [] 0 rfl

-- Machinery for dispatch totality (claim C10).

/-- The field-element encodings of the twelve tags are pairwise distinct. -/
theorem tag_fq_injective : ∀ a b : Tag, Tag.fq a = Tag.fq b → a = b := by decide

/-- Every field element whose representative lies in [1, 12] is the encoding
of exactly one `Tag` variant (existence part). -/
theorem exists_tag_of_val {x : FQ} (h1 : 1 ≤ x.val) (h2 : x.val ≤ 12) :
    ∃ t : Tag, Tag.fq t = x := by
  have hx : ((x.val : Nat) : FQ) = x := ZMod.natCast_rightInverse x
  revert h1 h2 hx
  generalize x.val = v
  intro h1 h2 hx
  interval_cases v
  · exact ⟨Tag.Start, hx⟩
  · exact ⟨Tag.Memory, hx⟩
  · exact ⟨Tag.Stack, hx⟩
  · exact ⟨Tag.Storage, hx⟩
  · exact ⟨Tag.CallContext, hx⟩
  · exact ⟨Tag.Account, hx⟩
  · exact ⟨Tag.TxRefund, hx⟩
  · exact ⟨Tag.TxAccessListAccount, hx⟩
  · exact ⟨Tag.TxAccessListAccountStorage, hx⟩
  · exact ⟨Tag.AccountDestructed, hx⟩
  · exact ⟨Tag.TxLog, hx⟩
  · exact ⟨Tag.TxReceipt, hx⟩

/-- A sequenced check is not the unreachable-branch rejection if neither part
is. -/
theorem seqE_ne_unreachable {a k : Except Err Unit}
    (ha : ¬ a = Except.error Err.unreachable) (hk : ¬ k = Except.error Err.unreachable) :
    ¬ seqE a k = Except.error Err.unreachable := by
  cases a with
  | ok u => cases u; exact hk
  | error e => exact ha

/-- A `req` never rejects with an error it does not name. -/
theorem req_ne_unreachable {b : Bool} {e : Err} (he : ¬ e = Err.unreachable) :
    ¬ req b e = Except.error Err.unreachable := by
  cases b
  · intro hc; exact he (Except.error.inj hc)
  · intro hc; exact Except.noConfusion hc

/-- Acceptance is not the unreachable-branch rejection. -/
theorem ok_ne_unreachable : ¬ (Except.ok () : Except Err Unit) = Except.error Err.unreachable :=
  fun hc => Except.noConfusion hc

/-- A conditional check is not the unreachable-branch rejection if neither
branch is. -/
theorem ite_ne_unreachable {c : Prop} [Decidable c] {a b : Except Err Unit}
    (ha : ¬ a = Except.error Err.unreachable) (hb : ¬ b = Except.error Err.unreachable) :
    ¬ (if c then a else b) = Except.error Err.unreachable := by
  by_cases h : c
  · rwa [if_pos h]
  · rwa [if_neg h]

theorem check_start_ne_unreachable (row row_prev : Row) :
    ¬ check_start row row_prev = Except.error Err.unreachable := by
  unfold check_start
  repeat' first
    | exact req_ne_unreachable (by decide)
    | apply seqE_ne_unreachable

theorem check_memory_ne_unreachable (row row_prev : Row) :
    ¬ check_memory row row_prev = Except.error Err.unreachable := by
  unfold check_memory
  repeat' first
    | exact req_ne_unreachable (by decide)
    | exact ok_ne_unreachable
    | apply seqE_ne_unreachable
    | apply ite_ne_unreachable

theorem check_stack_ne_unreachable (row row_prev : Row) :
    ¬ check_stack row row_prev = Except.error Err.unreachable := by
  unfold check_stack
  repeat' first
    | exact req_ne_unreachable (by decide)
    | exact ok_ne_unreachable
    | apply seqE_ne_unreachable
    | apply ite_ne_unreachable

theorem check_storage_ne_unreachable (row row_prev : Row) (tables : List MPTTableRow) :
    ¬ check_storage row row_prev tables = Except.error Err.unreachable := by
  unfold check_storage
  repeat' first
    | exact req_ne_unreachable (by decide)
    | exact ok_ne_unreachable
    | apply seqE_ne_unreachable
    | apply ite_ne_unreachable

theorem check_call_context_ne_unreachable (row row_prev : Row) :
    ¬ check_call_context row row_prev = Except.error Err.unreachable := by
  unfold check_call_context
  repeat' first
    | exact req_ne_unreachable (by decide)
    | apply seqE_ne_unreachable

theorem check_account_ne_unreachable (row row_prev : Row) (tables : List MPTTableRow) :
    ¬ check_account row row_prev tables = Except.error Err.unreachable := by
  unfold check_account
  repeat' first
    | exact req_ne_unreachable (by decide)
    | exact ok_ne_unreachable
    | apply seqE_ne_unreachable
    | apply ite_ne_unreachable

theorem check_tx_refund_ne_unreachable (row row_prev : Row) :
    ¬ check_tx_refund row row_prev = Except.error Err.unreachable := by
  unfold check_tx_refund
  repeat' first
    | exact req_ne_unreachable (by decide)
    | apply seqE_ne_unreachable

theorem check_tx_access_list_account_ne_unreachable (row row_prev : Row) :
    ¬ check_tx_access_list_account row row_prev = Except.error Err.unreachable := by
  unfold check_tx_access_list_account
  repeat' first
    | exact req_ne_unreachable (by decide)
    | apply seqE_ne_unreachable

theorem check_tx_access_list_account_storage_ne_unreachable (row row_prev : Row) :
    ¬ check_tx_access_list_account_storage row row_prev = Except.error Err.unreachable := by
  unfold check_tx_access_list_account_storage
  exact req_ne_unreachable (by decide)

theorem check_account_destructed_ne_unreachable (row row_prev : Row) :
    ¬ check_account_destructed row row_prev = Except.error Err.unreachable := by
  unfold check_account_destructed
  repeat' first
    | exact req_ne_unreachable (by decide)
    | apply seqE_ne_unreachable

theorem check_tx_log_ne_unreachable (row row_prev : Row) :
    ¬ check_tx_log row row_prev = Except.error Err.unreachable := by
  unfold check_tx_log
  exact req_ne_unreachable (by decide)

theorem check_tx_receipt_ne_unreachable (row row_prev : Row) :
    ¬ check_tx_receipt row row_prev = Except.error Err.unreachable := by
  unfold check_tx_receipt
  repeat' first
    | exact req_ne_unreachable (by decide)
    | exact ok_ne_unreachable
    | apply seqE_ne_unreachable
    | apply ite_ne_unreachable

/-- When the current row's tag encodes a `Tag` variant, the dispatch runs
that variant's checker and never reaches the unreachable branch. -/
theorem tag_dispatch_ne_unreachable (row row_prev : Row) (tables : List MPTTableRow)
    (t : Tag) (ht : Tag.fq t = row.tag) :
    ¬ tag_dispatch row row_prev tables = Except.error Err.unreachable := by
  unfold tag_dispatch
  rw [← ht]
  cases t
  case Start => exact check_start_ne_unreachable row row_prev
  case Memory => exact check_memory_ne_unreachable row row_prev
  case Stack => exact check_stack_ne_unreachable row row_prev
  case Storage => exact check_storage_ne_unreachable row row_prev tables
  case CallContext => exact check_call_context_ne_unreachable row row_prev
  case Account => exact check_account_ne_unreachable row row_prev tables
  case TxRefund => exact check_tx_refund_ne_unreachable row row_prev
  case TxAccessListAccount => exact check_tx_access_list_account_ne_unreachable row row_prev
  case TxAccessListAccountStorage =>
    exact check_tx_access_list_account_storage_ne_unreachable row row_prev
  case AccountDestructed => exact check_account_destructed_ne_unreachable row row_prev
  case TxLog => exact check_tx_log_ne_unreachable row row_prev
  case TxReceipt => exact check_tx_receipt_ne_unreachable row row_prev

/-- Claim C10: for every row passing the shared tag range check
(tag ∈ [1, 12]), the tag dispatch of `check_state_row` reaches exactly one of
the twelve per-tag checkers, and the `raise ValueError("Unreacheable")`
branch is unreachable (the checker never rejects with that rule). -/
theorem C10_dispatch_total (row row_prev : Row) (tables : List MPTTableRow) (randomness : FQ)
    (hrange : assert_in_range row.tag 1 MAX_TAG = true) :
    (∃! t : Tag, Tag.fq t = row.tag) ∧
    ¬ check_state_row row row_prev tables randomness = Except.error Err.unreachable := by
  obtain ⟨h1, h2⟩ := in_range_true hrange
  obtain ⟨t, ht⟩ := exists_tag_of_val h1 h2
  constructor
  · exact ⟨t, ht, fun t' ht' => tag_fq_injective t' t (ht'.trans ht.symm)⟩
  · unfold check_state_row
    repeat' first
      | exact tag_dispatch_ne_unreachable row row_prev tables t ht
      | exact req_ne_unreachable (by decide)
      | exact ok_ne_unreachable
      | apply seqE_ne_unreachable
      | apply ite_ne_unreachable

/-- Witness for C10: dispatch totality applied at a concrete Start row. -/
theorem C10_dispatch_total_witness :
    (∃! t : Tag, Tag.fq t = c4_row.tag) ∧
    ¬ check_state_row c4_row initial_row [] 0 = Except.error Err.unreachable :=
  C10_dispatch_total c4_row initial_row [] 0 (by decide)

-- Machinery for builder/projection/validator coherence (claim C9).

/-- Horner step of `linear_combine`. -/
theorem linear_combine_cons (b : FQ) (bs : List FQ) (base : FQ) :
    linear_combine (b :: bs) base = linear_combine bs base * base + b := rfl

/-- The linear combination of all-zero limbs is zero. -/
theorem linear_combine_replicate_zero (n : Nat) (base : FQ) :
    linear_combine (List.replicate n (0 : FQ)) base = 0 := by
  induction n with
  | zero => rfl
  | succ k ih => rw [List.replicate_succ, linear_combine_cons, ih, zero_mul, zero_add]

/-- Limb extraction of zero yields all-zero limbs. -/
theorem nat_limbs_zero (width : Nat) : ∀ n, nat_limbs width n 0 = List.replicate n 0
  | 0 => rfl
  | n + 1 => by simp [nat_limbs, nat_limbs_zero width n, List.replicate_succ]

/-- The RLC encoding of storage key 0 is the zero field element. -/
theorem le_bytes32_zero_lc (randomness : FQ) :
    linear_combine (le_bytes32 0) randomness = 0 := by
  rw [le_bytes32, nat_limbs_zero]
  exact linear_combine_replicate_zero 32 randomness

/-- The tag of a built row is the operation's tag, as a field element. -/
theorem op2row_row_tag (mc : FQ) (op : Operation) (randomness : FQ) :
    (op2row mc op randomness).2.tag = (op.tag : FQ) := rfl

/-- The storage-key field of a built row is the RLC of the operation's
storage key. -/
theorem op2row_row_storage_key (mc : FQ) (op : Operation) (randomness : FQ) :
    (op2row mc op randomness).2.storage_key =
      linear_combine (le_bytes32 op.storage_key) randomness := rfl

/-- The stamped counter of a built row: advanced by one exactly on
Storage/Account operations. -/
theorem op2row_row_mpt_counter (mc : FQ) (op : Operation) (randomness : FQ) :
    (op2row mc op randomness).2.mpt_counter =
      if op_is_storage_or_account op then mc + 1 else mc := rfl

/-- The builder emits one row per operation. -/
theorem assign_go_length (ops : List Operation) (randomness : FQ) :
    ∀ mc : FQ, (assign_go mc ops randomness).length = ops.length := by
  induction ops with
  | nil => intro mc; rfl
  | cons op rest ih => intro mc; simp [assign_go, ih]

/-- Row `i` of the builder's output is `op2row` of operation `i`, with the
counter advanced by the number of Storage/Account operations strictly
before index `i`. -/
theorem assign_go_getD (ops : List Operation) (randomness : FQ) :
    ∀ (i : Nat) (mc : FQ), i < ops.length →
      (assign_go mc ops randomness).getD i initial_row =
        (op2row (mc + (((ops.take i).countP op_is_storage_or_account : Nat) : FQ))
          (ops.getD i default_op) randomness).2 := by
  induction ops with
  | nil => intro i mc h; exact absurd h (by simp)
  | cons op rest ih =>
    intro i mc h
    cases i with
    | zero => simp [assign_go, List.getD_cons_zero]
    | succ j =>
      have hj : j < rest.length := by simpa using h
      have hstep : (assign_go mc (op :: rest) randomness).getD (j + 1) initial_row =
          (assign_go (op2row mc op randomness).1 rest randomness).getD j initial_row := by
        simp [assign_go, List.getD_cons_succ]
      rw [hstep, ih j _ hj]
      have hcnt : (op2row mc op randomness).1 +
            (((rest.take j).countP op_is_storage_or_account : Nat) : FQ) =
          mc + ((((op :: rest).take (j + 1)).countP op_is_storage_or_account : Nat) : FQ) := by
        rw [List.take_succ_cons, List.countP_cons]
        unfold op2row
        by_cases hsa : op_is_storage_or_account op = true
        · simp only [hsa, if_true]
          push_cast
          ring
        · simp [hsa]
      rw [hcnt]
      simp [List.getD_cons_succ]

/-- Entries projected from the tail of a row list are entries of the whole
projection. -/
theorem mpt_rows_go_tail_mem (prev : Option Row) (r0 : Row) (rest : List Row)
    {x : MPTTableRow} (hx : x ∈ mpt_rows_go (some r0) rest) :
    x ∈ mpt_rows_go prev (r0 :: rest) := by
  rw [mpt_rows_go]
  split
  · exact List.mem_cons_of_mem _ hx
  · split
    · exact List.mem_cons_of_mem _ hx
    · exact hx

/-- Every Storage (resp. Account) row of a row list contributes its oracle
tuple — keyed by its own `mpt_counter` and with `value_prev` computed from
its predecessor — to the projection. -/
theorem mpt_rows_go_mem (rows : List Row) :
    ∀ (i : Nat) (prev : Option Row), i < rows.length →
      (((rows.getD i initial_row).tag = Tag.fq Tag.Storage →
        (⟨(rows.getD i initial_row).mpt_counter, MPTTableTag_Storage,
          (rows.getD i initial_row).address, (rows.getD i initial_row).storage_key,
          (rows.getD i initial_row).value,
          mpt_value_prev (rows.getD i initial_row) (opt_prev prev rows i)⟩ : MPTTableRow)
          ∈ mpt_rows_go prev rows) ∧
      ((rows.getD i initial_row).tag = Tag.fq Tag.Account →
        (⟨(rows.getD i initial_row).mpt_counter, (rows.getD i initial_row).field_tag,
          (rows.getD i initial_row).address, (rows.getD i initial_row).storage_key,
          (rows.getD i initial_row).value,
          mpt_value_prev (rows.getD i initial_row) (opt_prev prev rows i)⟩ : MPTTableRow)
          ∈ mpt_rows_go prev rows)) := by
  induction rows with
  | nil => intro i prev h; exact absurd h (by simp)
  | cons r0 rest ih =>
    intro i prev h
    cases i with
    | zero =>
      constructor
      · intro htag
        simp only [List.getD_cons_zero] at htag ⊢
        rw [mpt_rows_go, if_pos htag]
        exact List.mem_cons_self _ _
      · intro htag
        simp only [List.getD_cons_zero] at htag ⊢
        rw [mpt_rows_go, if_neg (by rw [htag]; decide), if_pos htag]
        exact List.mem_cons_self _ _
    | succ j =>
      have hj : j < rest.length := by simpa using h
      have halign : opt_prev (some r0) rest j = opt_prev prev (r0 :: rest) (j + 1) := by
        cases j with
        | zero => rfl
        | succ k => simp [opt_prev, List.getD_cons_succ]
      have htail := ih j (some r0) hj
      constructor
      · intro htag
        simp only [List.getD_cons_succ] at htag ⊢
        rw [← halign]
        exact mpt_rows_go_tail_mem prev r0 rest (htail.1 htag)
      · intro htag
        simp only [List.getD_cons_succ] at htag ⊢
        rw [← halign]
        exact mpt_rows_go_tail_mem prev r0 rest (htail.2 htag)

/-- On rows whose tag differs from the synthetic all-zero row's, the
projection's `value_prev` coincides with the one the validator queries
(previous row's value when all keys match, else the row's committed value). -/
theorem mpt_value_prev_validator (rows : List Row) (i : Nat)
    (htag : ¬ (rows.getD i initial_row).tag = initial_row.tag) :
    mpt_value_prev (rows.getD i initial_row) (opt_prev none rows i) =
      (if all_keys_eq (rows.getD i initial_row) (prev_row_at rows i)
       then (prev_row_at rows i).value else (rows.getD i initial_row).aux0) := by
  cases i with
  | zero =>
    have hp : prev_row_at rows 0 = initial_row := rfl
    rw [hp, all_keys_eq_false_of_tag_ne htag]
    simp [mpt_value_prev, opt_prev]
  | succ j =>
    have hp : prev_row_at rows (j + 1) = rows.getD j initial_row := by
      simp [prev_row_at]
    rw [hp]
    rfl

/-- Splitting the Storage/Account count at index `i`. -/
theorem countP_take_succ (ops : List Operation) (i : Nat) (h : i < ops.length) :
    (ops.take (i + 1)).countP op_is_storage_or_account =
      (ops.take i).countP op_is_storage_or_account +
        (if op_is_storage_or_account (ops.getD i default_op) then 1 else 0) := by
  rw [List.take_succ, List.countP_append]
  congr 1
  rw [List.getElem?_eq_getElem h, List.getD_eq_getElem ops default_op h]
  simp [List.countP_cons]

/-- Claim C9: builder/projection/validator coherence.  For every well-formed
operation list, with rows assigned by `assign_state_circuit` and the oracle
projected by `mpt_table_from_ops`, every Storage (resp. Account) row's oracle
lookup — exactly the query `check_storage` (resp. `check_account`) performs,
with the validator's `value_prev` rule and the synthetic all-zero predecessor
at index 0 — succeeds, and the row's stamped `mpt_counter` is the number of
Storage/Account operations up to and including its own. -/
theorem C9_builder_projection_coherence (ops : List Operation) (randomness : FQ)
    (hwf : ∀ op ∈ ops, OpWF op) (i : Nat) (hi : i < ops.length) :
    ((state_row_at ops randomness i).tag = Tag.fq Tag.Storage →
      mpt_storage_lookup (mpt_table_from_ops ops randomness)
        (state_row_at ops randomness i).mpt_counter
        (state_row_at ops randomness i).address
        (state_row_at ops randomness i).storage_key
        (state_row_at ops randomness i).value
        (if all_keys_eq (state_row_at ops randomness i) (state_prev_row ops randomness i)
         then (state_prev_row ops randomness i).value
         else (state_row_at ops randomness i).aux0) = true) ∧
    ((state_row_at ops randomness i).tag = Tag.fq Tag.Account →
      mpt_account_lookup (mpt_table_from_ops ops randomness)
        (state_row_at ops randomness i).mpt_counter
        (state_row_at ops randomness i).field_tag
        (state_row_at ops randomness i).address
        (state_row_at ops randomness i).value
        (if all_keys_eq (state_row_at ops randomness i) (state_prev_row ops randomness i)
         then (state_prev_row ops randomness i).value
         else (state_row_at ops randomness i).aux0) = true) ∧
    (state_row_at ops randomness i).mpt_counter =
      (((ops.take (i + 1)).countP op_is_storage_or_account : Nat) : FQ) := by
  have hlen : i < (assign_state_circuit ops randomness).length := by
    rw [assign_state_circuit, assign_go_length]
    exact hi
  have hrow : (assign_state_circuit ops randomness).getD i initial_row =
      (op2row ((0 : FQ) + (((ops.take i).countP op_is_storage_or_account : Nat) : FQ))
        (ops.getD i default_op) randomness).2 :=
    assign_go_getD ops randomness i 0 hi
  refine ⟨?_, ?_, ?_⟩
  · intro htag
    simp only [state_row_at] at htag
    simp only [state_row_at, state_prev_row, mpt_table_from_ops, mpt_table_from_rows,
      mpt_storage_lookup]
    apply decide_eq_true
    have hne : ¬ ((assign_state_circuit ops randomness).getD i initial_row).tag =
        initial_row.tag := by
      rw [htag]; decide
    have hmem := (mpt_rows_go_mem (assign_state_circuit ops randomness) i none hlen).1 htag
    rw [mpt_value_prev_validator (assign_state_circuit ops randomness) i hne] at hmem
    exact hmem
  · intro htag
    simp only [state_row_at] at htag
    simp only [state_row_at, state_prev_row, mpt_table_from_ops, mpt_table_from_rows,
      mpt_account_lookup]
    apply decide_eq_true
    have hne : ¬ ((assign_state_circuit ops randomness).getD i initial_row).tag =
        initial_row.tag := by
      rw [htag]; decide
    have hmem := (mpt_rows_go_mem (assign_state_circuit ops randomness) i none hlen).2 htag
    rw [mpt_value_prev_validator (assign_state_circuit ops randomness) i hne] at hmem
    have hopmem : ops.getD i default_op ∈ ops := by
      rw [List.getD_eq_getElem ops default_op hi]
      exact List.getElem_mem hi
    have htag_op : ((ops.getD i default_op).tag : FQ) = Tag.fq Tag.Account := by
      rw [hrow, op2row_row_tag] at htag
      exact htag
    have hsk : ((assign_state_circuit ops randomness).getD i initial_row).storage_key = 0 := by
      rw [hrow, op2row_row_storage_key, (hwf _ hopmem).2.2 htag_op, le_bytes32_zero_lc]
    rw [hsk] at hmem
    exact hmem
  · simp only [state_row_at]
    rw [hrow, op2row_row_mpt_counter, countP_take_succ ops i hi]
    by_cases hsa : op_is_storage_or_account (ops.getD i default_op) = true
    · rw [if_pos hsa, if_pos hsa]
      push_cast
      ring
    · rw [if_neg hsa, if_neg hsa]
      push_cast
      ring

/-- Witness for C9: coherence applied to the one-operation list holding a
concrete Storage operation. -/
theorem C9_builder_projection_coherence_witness :
    ((state_row_at [c9_op] 0 0).tag = Tag.fq Tag.Storage →
      mpt_storage_lookup (mpt_table_from_ops [c9_op] 0)
        (state_row_at [c9_op] 0 0).mpt_counter
        (state_row_at [c9_op] 0 0).address
        (state_row_at [c9_op] 0 0).storage_key
        (state_row_at [c9_op] 0 0).value
        (if all_keys_eq (state_row_at [c9_op] 0 0) (state_prev_row [c9_op] 0 0)
         then (state_prev_row [c9_op] 0 0).value
         else (state_row_at [c9_op] 0 0).aux0) = true) ∧
    ((state_row_at [c9_op] 0 0).tag = Tag.fq Tag.Account →
      mpt_account_lookup (mpt_table_from_ops [c9_op] 0)
        (state_row_at [c9_op] 0 0).mpt_counter
        (state_row_at [c9_op] 0 0).field_tag
        (state_row_at [c9_op] 0 0).address
        (state_row_at [c9_op] 0 0).value
        (if all_keys_eq (state_row_at [c9_op] 0 0) (state_prev_row [c9_op] 0 0)
         then (state_prev_row [c9_op] 0 0).value
         else (state_row_at [c9_op] 0 0).aux0) = true) ∧
    (state_row_at [c9_op] 0 0).mpt_counter =
      ((([c9_op].take (0 + 1)).countP op_is_storage_or_account : Nat) : FQ) :=
  C9_builder_projection_coherence [c9_op] 0
    (by
      intro op hop
      rw [List.mem_singleton] at hop
      subst hop
      exact ⟨by decide, by decide, fun hc => absurd hc (by decide)⟩)
    0 (by decide)
